import Mathlib

/-!
Verification of the authenticated-session lifecycle specified for the
Django REST backend (Projeto Interdisciplinar, FATEC Araras).

The repository slice under src/ holds only two files: the views
aggregator `src/server/api/views/__init__.py` and the URL-level test
`src/server/api/tests/test_me_urls.py`. The Token Service, Session
Gateway and Account Mutation Gateway that the specification describes
are not part of the sampled slice, so they are modelled here from the
words of the specification (sections 3, 4, 6 and 7). The aggregator
and the test are embedded directly from the source.
-/

namespace SessionSpec

/-- Modelled from the spec: the token_type discriminator of a
self-contained credential (section 3, TokenPair): access or refresh. -/
inductive TokenType where
  | access
  | refresh
deriving DecidableEq, Repr

/-- Modelled from the spec: the typed failure taxonomy of the Token
Service (section 7): Invalid (signature/structure failure), Expired
(time-based rejection), WrongType (token/operation mismatch), NotFound
(user resolved from a token no longer exists). -/
inductive AuthError where
  | Invalid
  | Expired
  | WrongType
  | NotFound
deriving DecidableEq, Repr

/-- Modelled from the spec: a signed, self-contained credential carrying
user_id, issued_at, expires_at and token_type (section 3), plus the
signature bytes produced with the server secret. Timestamps are seconds
as natural numbers. -/
structure Token where
  user_id : Nat
  issued_at : Nat
  expires_at : Nat
  token_type : TokenType
  sig : List Nat
deriving DecidableEq, Repr

/-- Modelled from the spec: TokenPair is the record of access_token and
refresh_token returned by issue and refresh (section 3). -/
structure TokenPair where
  access_token : Token
  refresh_token : Token
deriving DecidableEq, Repr

/-- Byte encoding of the token_type field used by the signature. -/
def typeByte : TokenType → Nat
  | TokenType.access => 0
  | TokenType.refresh => 1

/-- Modelled from the spec: tokens are signed with a server secret
(section 4.1). The cryptographic MAC is external; it is modelled as a
deterministic byte list over the payload fields and the secret, which
is all the lifecycle properties use (validation recomputes it and
compares). -/
def sign (user_id issued_at expires_at : Nat) (tt : TokenType) (secret : Nat) : List Nat :=
  [user_id % 256, issued_at % 256, expires_at % 256, typeByte tt,
   (user_id + issued_at + expires_at + typeByte tt + secret) % 256, secret % 256]

/-- Modelled from the spec: access tokens are short-lived, minutes
(section 3). Fifteen minutes in seconds. -/
def accessTokenLifetime : Nat := 15 * 60

/-- Modelled from the spec: refresh tokens are longer-lived, days
(section 3). Seven days in seconds. -/
def refreshTokenLifetime : Nat := 7 * 24 * 60 * 60

/-- Modelled from the spec: issue(user_id) creates access + refresh
tokens with fixed expiries, signed with the server secret; no side
effects beyond token creation (section 4.1). -/
def issue (user_id secret now : Nat) : TokenPair :=
  { access_token :=
      { user_id := user_id
        issued_at := now
        expires_at := now + accessTokenLifetime
        token_type := TokenType.access
        sig := sign user_id now (now + accessTokenLifetime) TokenType.access secret }
    refresh_token :=
      { user_id := user_id
        issued_at := now
        expires_at := now + refreshTokenLifetime
        token_type := TokenType.refresh
        sig := sign user_id now (now + refreshTokenLifetime) TokenType.refresh secret } }

/-- Modelled from the spec: validate(token, expected_type) verifies
signature, expiry, and type; fails with Invalid (bad signature),
Expired (past expiry), or WrongType (refresh token presented where
access expected, or vice versa); otherwise returns the user_id
(section 4.1). A token is past expiry when the validation time is
strictly greater than expires_at (section 8, property 3 boundary). -/
def validate (t : Token) (expected : TokenType) (secret now : Nat) : Except AuthError Nat :=
  if t.sig ≠ sign t.user_id t.issued_at t.expires_at t.token_type secret then
    Except.error AuthError.Invalid
  else if t.expires_at < now then
    Except.error AuthError.Expired
  else if t.token_type ≠ expected then
    Except.error AuthError.WrongType
  else
    Except.ok t.user_id

/-- Modelled from the spec: refresh(refresh_token) validates the refresh
token, then issues a new token pair (new access token and, per design
choice, a new refresh token); fails with the validation error on a bad
refresh token (section 4.1). -/
def tokenRefresh (r : Token) (secret now : Nat) : Except AuthError TokenPair :=
  match validate r TokenType.refresh secret now with
  | Except.error e => Except.error e
  | Except.ok uid => Except.ok (issue uid secret now)

/-- Modelled from the spec: the user record in the Credential Store
(section 3, User): opaque id, display name, unique email, nullable
avatar reference. The password hash and OAuth subject id play no role
in the sampled lifecycle and are omitted from the claims. -/
structure User where
  id : Nat
  name : String
  email : String
  avatar : Option (List Nat)
deriving DecidableEq, Repr

/-- Modelled from the spec: the Credential Store, external persistent
user-record storage, as a list of user records. -/
abbrev Store := List User

/-- Resolve a user record from the Credential Store by id. -/
def findUser (st : Store) (uid : Nat) : Option User :=
  st.find? (fun u => u.id == uid)

/-- Modelled from the spec: at the gateway boundary every auth-kind
failure (Invalid, Expired, WrongType, NotFound) collapses to
Unauthorized, HTTP 401 (section 7). -/
def mapAuthError : AuthError → Nat
  | AuthError.Invalid => 401
  | AuthError.Expired => 401
  | AuthError.WrongType => 401
  | AuthError.NotFound => 401

/-- Modelled from the spec: check_session(access_token) is pure
validation, returning 200 on a valid access token and Unauthorized
otherwise (sections 4.2 and 6). -/
def checkSession (t : Token) (secret now : Nat) : Nat :=
  match validate t TokenType.access secret now with
  | Except.error e => mapAuthError e
  | Except.ok _ => 200

/-- Modelled from the spec: get_current_user(access_token) validates
then resolves the user record from the Credential Store; a token whose
user no longer exists is NotFound, mapped to Unauthorized
(sections 4.2 and 7). Returns the HTTP status. -/
def getCurrentUser (st : Store) (t : Token) (secret now : Nat) : Nat :=
  match validate t TokenType.access secret now with
  | Except.error e => mapAuthError e
  | Except.ok uid =>
    match findUser st uid with
    | none => mapAuthError AuthError.NotFound
    | some _ => 200

/-- Modelled from the spec: logout(access_token) validates the token;
since sessions are stateless it is a no-op acknowledgement with no
server-side revocation (section 4.2). Returns the HTTP status and the
resulting Credential Store. -/
def logout (st : Store) (t : Token) (secret now : Nat) : Nat × Store :=
  match validate t TokenType.access secret now with
  | Except.error e => (mapAuthError e, st)
  | Except.ok _ => (200, st)

/-- Modelled from the spec: the raw refresh-token input of the refresh
endpoint, which is either syntactically malformed or parses to a token
structure (section 4.2). -/
inductive RawToken where
  | malformed
  | wellFormed (t : Token)

/-- Modelled from the spec: the Session Gateway refresh endpoint
delegates to Token Service refresh; a syntactically malformed token is
BadRequest 400, a well-formed-but-invalid/expired one is Unauthorized
401, success is 200 with the new pair (sections 4.2 and 6). -/
def gatewayRefresh (raw : RawToken) (secret now : Nat) : Nat × Option TokenPair :=
  match raw with
  | RawToken.malformed => (400, none)
  | RawToken.wellFormed r =>
    match tokenRefresh r secret now with
    | Except.error e => (mapAuthError e, none)
    | Except.ok p => (200, some p)

/-- Modelled from the spec: the allowed fields of a partial profile
update, e.g. name (section 4.3). -/
def allowedProfileFields : List String := ["name"]

/-- Apply a partial update of allowed fields to a user record. -/
def applyProfileFields (u : User) (fields : List (String × String)) : User :=
  fields.foldl (fun acc f => if f.1 = "name" then { acc with name := f.2 } else acc) u

/-- Modelled from the spec: update_profile(access_token, fields)
validates the token, rejects unknown field names as BadRequest 400,
and otherwise applies a partial update to the allowed fields of the
stored record (section 4.3). Returns the HTTP status and the resulting
Credential Store. -/
def updateProfile (st : Store) (t : Token) (fields : List (String × String)) (secret now : Nat) : Nat × Store :=
  match validate t TokenType.access secret now with
  | Except.error e => (mapAuthError e, st)
  | Except.ok uid =>
    if fields.any (fun f => !(allowedProfileFields.contains f.1)) then (400, st)
    else
      match findUser st uid with
      | none => (mapAuthError AuthError.NotFound, st)
      | some _ => (200, st.map (fun u => if u.id = uid then applyProfileFields u fields else u))

/-- Modelled from the spec: update_avatar requires a non-empty,
decodable image payload (section 4.3). The image codec itself is
external, so decodability of the payload is modelled as nonemptiness
of the byte list. -/
def imageDecodes (img : List Nat) : Bool := !img.isEmpty

/-- Modelled from the spec: update_avatar(access_token, image_bytes)
validates the token, rejects an empty or corrupt payload as BadRequest
400, and otherwise stores the avatar reference (section 4.3). Returns
the HTTP status and the resulting Credential Store. -/
def updateAvatar (st : Store) (t : Token) (img : List Nat) (secret now : Nat) : Nat × Store :=
  match validate t TokenType.access secret now with
  | Except.error e => (mapAuthError e, st)
  | Except.ok uid =>
    if imageDecodes img then
      match findUser st uid with
      | none => (mapAuthError AuthError.NotFound, st)
      | some _ => (200, st.map (fun u => if u.id = uid then { u with avatar := some img } else u))
    else (400, st)

/-- Modelled from the spec: delete_account(access_token) validates the
token and irreversibly removes the user record (section 4.3). Returns
the HTTP status and the resulting Credential Store. -/
def deleteAccount (st : Store) (t : Token) (secret now : Nat) : Nat × Store :=
  match validate t TokenType.access secret now with
  | Except.error e => (mapAuthError e, st)
  | Except.ok uid =>
    match findUser st uid with
    | none => (mapAuthError AuthError.NotFound, st)
    | some _ => (200, st.filter (fun u => u.id != uid))

/-- The names re-exported by the views aggregator module
src/server/api/views/__init__.py, lines 1-9, embedded verbatim from
the source. -/
def apiViewsAggregatorExports : List String :=
  ["RegistroView", "LoginView",
   "AlimentoTacoView",
   "google_auth",
   "ReceitaCreateView", "ReceitaUpdateView", "ReceitaDeleteView", "ReceitaListView",
   "IngredienteCreateView", "IngredienteUpdateView", "IngredienteDeleteView",
   "IngredienteListByReceitaView", "IngredienteDetailView",
   "RotuloNutricionalView",
   "DocumentoCreateView", "DocumentoListView", "DocumentoPdfView", "RotuloPdfView",
   "ClienteListView", "ClienteCreateView", "ClienteDetailView", "ClienteDeleteView",
   "ClienteUpdateView",
   "ChangePasswordView"]

/-- The names the me-URLs test imports from the api.views package,
src/server/api/tests/test_me_urls.py, lines 5-13, embedded verbatim
from the source. -/
def meUrlsTestImports : List String :=
  ["CheckSessionView", "GetUserView", "LogoutView", "RefreshTokenView",
   "UpdateUserView", "AvatarUpdateView", "DeleteAccountView"]

end SessionSpec

namespace SessionSpec

/-- Every auth-kind failure maps to 401 at the boundary. -/
lemma mapAuthError_eq (e : AuthError) : mapAuthError e = 401 := by
  cases e <;> rfl

/-- Characterisation of a successful validation: correct signature,
unexpired at the validation time, and matching token type. -/
lemma validate_ok_iff (t : Token) (expected : TokenType) (secret now v : Nat) :
    validate t expected secret now = Except.ok v ↔
      (t.sig = sign t.user_id t.issued_at t.expires_at t.token_type secret ∧
       now ≤ t.expires_at ∧ t.token_type = expected ∧ v = t.user_id) := by
  unfold validate
  split_ifs with h1 h2 h3 <;> (simp_all; try omega)

/-- Altering one entry of a list to a different value changes the list. -/
lemma set_ne_of_ne (l : List Nat) (i b : Nat) (hi : i < l.length)
    (hb : b ≠ l.get ⟨i, hi⟩) : l.set i b ≠ l := by
  intro h
  apply hb
  have h2 := congrArg (fun xs => xs[i]?) h
  simp only [List.getElem?_set, if_pos rfl, hi, if_pos] at h2
  simp [hi, List.getElem?_eq_getElem hi] at h2
  simpa [List.get_eq_getElem] using h2

/-- Claim C2: for every valid user id u, issue(u) followed by
validate(access_token, access) succeeds and returns exactly u. -/
theorem issue_validate_roundtrip (u secret now : Nat) :
    validate (issue u secret now).access_token TokenType.access secret now = Except.ok u := by
  simp [validate, issue, sign, accessTokenLifetime]

/-- Claim C6: a correctly signed token validated strictly after its
expires_at timestamp fails with Expired, whatever the expected type;
validated at or before expiry it never fails with Expired. -/
theorem expiry_rejection (t : Token) (expected : TokenType) (secret now : Nat)
    (hsig : t.sig = sign t.user_id t.issued_at t.expires_at t.token_type secret) :
    (t.expires_at < now → validate t expected secret now = Except.error AuthError.Expired) ∧
    (now ≤ t.expires_at → validate t expected secret now ≠ Except.error AuthError.Expired) := by
  constructor
  · intro h
    simp [validate, hsig, h]
  · intro h
    simp only [validate, hsig]
    rw [if_neg (by simp), if_neg (by omega)]
    split <;> simp

/-- Witness for C6 at the time boundary expiry plus one: the access
token issued for user 1 at time 3 with secret 2 is rejected as Expired
one second after its expiry. -/
theorem expiry_rejection_witness :
    validate (issue 1 2 3).access_token TokenType.access 2 (3 + accessTokenLifetime + 1)
      = Except.error AuthError.Expired :=
  (expiry_rejection (issue 1 2 3).access_token TokenType.access 2
      (3 + accessTokenLifetime + 1) (by rfl)).1 (by simp [issue])

/-- Claim C7: for a token pair produced by issue, presenting the
refresh token where an access token is expected, or the access token
where a refresh token is expected, fails validate with WrongType while
the token is unexpired, never succeeds at any time, and WrongType is
surfaced as Unauthorized 401 at the gateway boundary. -/
theorem type_confusion_rejection (u secret now nowv : Nat) :
    (nowv ≤ now + refreshTokenLifetime →
      validate (issue u secret now).refresh_token TokenType.access secret nowv
        = Except.error AuthError.WrongType) ∧
    (nowv ≤ now + accessTokenLifetime →
      validate (issue u secret now).access_token TokenType.refresh secret nowv
        = Except.error AuthError.WrongType) ∧
    (∀ v, validate (issue u secret now).refresh_token TokenType.access secret nowv
        ≠ Except.ok v) ∧
    (∀ v, validate (issue u secret now).access_token TokenType.refresh secret nowv
        ≠ Except.ok v) ∧
    mapAuthError AuthError.WrongType = 401 := by
  refine ⟨?_, ?_, ?_, ?_, rfl⟩
  · intro h
    simp [validate, issue, Nat.not_lt.mpr h]
  · intro h
    simp [validate, issue, Nat.not_lt.mpr h]
  · intro v h
    rcases (validate_ok_iff _ _ _ _ _).mp h with ⟨_, _, hty, _⟩
    simp [issue] at hty
  · intro v h
    rcases (validate_ok_iff _ _ _ _ _).mp h with ⟨_, _, hty, _⟩
    simp [issue] at hty

/-- Witness for C7: the refresh token issued for user 1 at time 3 with
secret 2, presented as an access token at time 3, fails with
WrongType. -/
theorem type_confusion_rejection_witness :
    validate (issue 1 2 3).refresh_token TokenType.access 2 3
      = Except.error AuthError.WrongType :=
  (type_confusion_rejection 1 2 3 3).1 (Nat.le_add_right 3 refreshTokenLifetime)

/-- Claim C5: for every token of a pair produced by issue and every
single-byte alteration of its signature, validate on the altered token
fails with Invalid, for every expected type and at every validation
time. -/
theorem tamper_rejection (u secret now nowv : Nat) (t : Token)
    (ht : t = (issue u secret now).access_token ∨ t = (issue u secret now).refresh_token)
    (i b : Nat) (hi : i < t.sig.length) (hb : b ≠ t.sig.get ⟨i, hi⟩) (_hbyte : b < 256)
    (expected : TokenType) :
    validate { t with sig := t.sig.set i b } expected secret nowv
      = Except.error AuthError.Invalid := by
  have hsig : t.sig = sign t.user_id t.issued_at t.expires_at t.token_type secret := by
    rcases ht with h | h <;> subst h <;> rfl
  have hne : t.sig.set i b ≠ sign t.user_id t.issued_at t.expires_at t.token_type secret := by
    rw [← hsig]
    exact set_ne_of_ne t.sig i b hi hb
  simp [validate, hne]

/-- Witness for C5: flipping the first signature byte of the access
token issued for user 1 at time 3 with secret 2 to the value 7 makes
validation fail with Invalid. -/
theorem tamper_rejection_witness :
    validate { (issue 1 2 3).access_token with
                 sig := (issue 1 2 3).access_token.sig.set 0 7 }
        TokenType.access 2 3
      = Except.error AuthError.Invalid :=
  tamper_rejection 1 2 3 3 (issue 1 2 3).access_token (Or.inl rfl) 0 7
    (by simp [issue, sign]) (by simp [issue, sign]) (by decide) TokenType.access

/-- Claim C3: a correctly signed, unexpired refresh token refreshes to
the freshly issued token pair, whose access token itself validates as
an access token to the same user id; an expired refresh token makes
refresh fail with Expired, surfaced as Unauthorized 401 at the
gateway. -/
theorem refresh_correctness (r : Token) (secret now : Nat)
    (hsig : r.sig = sign r.user_id r.issued_at r.expires_at r.token_type secret)
    (hty : r.token_type = TokenType.refresh) :
    (now ≤ r.expires_at →
      tokenRefresh r secret now = Except.ok (issue r.user_id secret now) ∧
      validate (issue r.user_id secret now).access_token TokenType.access secret now
        = Except.ok r.user_id) ∧
    (r.expires_at < now →
      tokenRefresh r secret now = Except.error AuthError.Expired ∧
      (gatewayRefresh (RawToken.wellFormed r) secret now).1 = 401) := by
  constructor
  · intro h
    have hv : validate r TokenType.refresh secret now = Except.ok r.user_id :=
      (validate_ok_iff _ _ _ _ _).mpr ⟨hsig, h, hty, rfl⟩
    constructor
    · simp [tokenRefresh, hv]
    · simp [validate, issue, sign, accessTokenLifetime]
  · intro h
    have hv : validate r TokenType.refresh secret now = Except.error AuthError.Expired := by
      simp [validate, hsig, h]
    constructor
    · simp [tokenRefresh, hv]
    · simp [gatewayRefresh, tokenRefresh, hv, mapAuthError]

/-- Witness for C3: the refresh token issued for user 1 at time 3 with
secret 2 refreshes at time 3 to the pair issued for user 1 at time 3. -/
theorem refresh_correctness_witness :
    tokenRefresh (issue 1 2 3).refresh_token 2 3 = Except.ok (issue 1 2 3) :=
  ((refresh_correctness (issue 1 2 3).refresh_token 2 3 rfl rfl).1
    (Nat.le_add_right 3 refreshTokenLifetime)).1

/-- Claim C1: possession of a structurally valid, unexpired, correctly
signed access token is necessary and sufficient for check_session to
authorize; logout never changes the Credential Store; and after a
successful logout, get_current_user with the same access token still
returns 200 at any time strictly before the natural expiry of the
token, provided the user record exists. -/
theorem stateless_session_invariant (st : Store) (t : Token) (secret now nowv : Nat) :
    (checkSession t secret now = 200 ↔
      (t.sig = sign t.user_id t.issued_at t.expires_at t.token_type secret ∧
       now ≤ t.expires_at ∧ t.token_type = TokenType.access)) ∧
    ((logout st t secret now).2 = st) ∧
    ((logout st t secret now).1 = 200 → nowv < t.expires_at →
      (findUser st t.user_id).isSome = true →
      getCurrentUser (logout st t secret now).2 t secret nowv = 200) := by
  refine ⟨?_, ?_, ?_⟩
  · unfold checkSession
    cases h : validate t TokenType.access secret now with
    | error e =>
      simp [mapAuthError_eq e]
      intro h1 h2 h3
      have := (validate_ok_iff t TokenType.access secret now t.user_id).mpr ⟨h1, h2, h3, rfl⟩
      rw [h] at this
      cases this
    | ok v =>
      rcases (validate_ok_iff _ _ _ _ _).mp h with ⟨h1, h2, h3, _⟩
      simp [h1, h2, h3]
  · unfold logout
    split <;> rfl
  · intro h200 hlt hfind
    cases h : validate t TokenType.access secret now with
    | error e =>
      simp only [logout, h, mapAuthError_eq e] at h200
      exact absurd h200 (by decide)
    | ok v =>
      rcases (validate_ok_iff _ _ _ _ _).mp h with ⟨h1, h2, h3, hveq⟩
      have hv2 : validate t TokenType.access secret nowv = Except.ok t.user_id :=
        (validate_ok_iff _ _ _ _ _).mpr ⟨h1, Nat.le_of_lt hlt, h3, rfl⟩
      have hst : (logout st t secret now).2 = st := by
        simp only [logout, h]
      rw [hst]
      rcases Option.isSome_iff_exists.mp hfind with ⟨u, hu⟩
      simp [getCurrentUser, hv2, hu]

/-- Witness for C1: after a successful logout of the access token
issued for user 1 at time 3 with secret 2, get_current_user with the
same token at time 4, before expiry, still returns 200. -/
theorem stateless_session_invariant_witness :
    getCurrentUser
        (logout [{ id := 1, name := "a", email := "e", avatar := none }]
          (issue 1 2 3).access_token 2 3).2
        (issue 1 2 3).access_token 2 4 = 200 :=
  (stateless_session_invariant [{ id := 1, name := "a", email := "e", avatar := none }]
      (issue 1 2 3).access_token 2 3 4).2.2 (by rfl) (by decide) (by rfl)

/-- Claim C4: every auth-kind Token Service failure maps to
Unauthorized 401 at the gateway boundary; every input-validation
failure maps to BadRequest 400 — for the refresh endpoint a
syntactically malformed refresh token, for update_profile an unknown
field name, for update_avatar a non-decodable image payload (the other
four operations take no caller input beyond the token, so they have no
input-validation failures); a well-formed token on which Token Service
refresh fails yields 401; and every Session or Account gateway
operation surfaces a validation failure of the presented access token
as 401. -/
theorem boundary_error_mapping :
    (∀ e, mapAuthError e = 401) ∧
    (∀ secret now, (gatewayRefresh RawToken.malformed secret now).1 = 400) ∧
    (∀ r secret now e, tokenRefresh r secret now = Except.error e →
      (gatewayRefresh (RawToken.wellFormed r) secret now).1 = 401) ∧
    (∀ st t fields secret now uid,
      validate t TokenType.access secret now = Except.ok uid →
      fields.any (fun f => !(allowedProfileFields.contains f.1)) = true →
      (updateProfile st t fields secret now).1 = 400) ∧
    (∀ st t img secret now uid,
      validate t TokenType.access secret now = Except.ok uid →
      imageDecodes img = false →
      (updateAvatar st t img secret now).1 = 400) ∧
    (∀ st t fields img secret now e,
      validate t TokenType.access secret now = Except.error e →
      checkSession t secret now = 401 ∧
      getCurrentUser st t secret now = 401 ∧
      (logout st t secret now).1 = 401 ∧
      (updateProfile st t fields secret now).1 = 401 ∧
      (updateAvatar st t img secret now).1 = 401 ∧
      (deleteAccount st t secret now).1 = 401) := by
  refine ⟨mapAuthError_eq, fun _ _ => rfl, ?_, ?_, ?_, ?_⟩
  · intro r secret now e h
    simp [gatewayRefresh, h, mapAuthError_eq]
  · intro st t fields secret now uid hauth hbad
    simp only [updateProfile, hauth]
    rw [hbad]
    simp
  · intro st t img secret now uid hauth himg
    simp only [updateAvatar, hauth]
    rw [himg]
    simp
  · intro st t fields img secret now e h
    refine ⟨?_, ?_, ?_, ?_, ?_, ?_⟩ <;>
      simp [checkSession, getCurrentUser, logout, updateProfile, updateAvatar,
            deleteAccount, h, mapAuthError_eq]

/-- Witness for C4: a token with an empty signature list is rejected
by the refresh gateway with 401 and by check_session with 401, while
with a valid access token an unknown profile field and an empty avatar
payload are each rejected with 400. -/
theorem boundary_error_mapping_witness :
    (gatewayRefresh
        (RawToken.wellFormed
          { user_id := 1, issued_at := 0, expires_at := 10,
            token_type := TokenType.access, sig := [] }) 2 3).1 = 401 ∧
    checkSession
        { user_id := 1, issued_at := 0, expires_at := 10,
          token_type := TokenType.access, sig := [] } 2 3 = 401 ∧
    (updateProfile [{ id := 1, name := "a", email := "e", avatar := none }]
        (issue 1 2 3).access_token [("unknown_field", "x")] 2 3).1 = 400 ∧
    (updateAvatar [{ id := 1, name := "a", email := "e", avatar := none }]
        (issue 1 2 3).access_token [] 2 3).1 = 400 :=
  ⟨boundary_error_mapping.2.2.1
      { user_id := 1, issued_at := 0, expires_at := 10,
        token_type := TokenType.access, sig := [] } 2 3 AuthError.Invalid (by rfl),
   (boundary_error_mapping.2.2.2.2.2 []
      { user_id := 1, issued_at := 0, expires_at := 10,
        token_type := TokenType.access, sig := [] } [] [] 2 3 AuthError.Invalid (by rfl)).1,
   boundary_error_mapping.2.2.2.1 [{ id := 1, name := "a", email := "e", avatar := none }]
      (issue 1 2 3).access_token [("unknown_field", "x")] 2 3 1 (by rfl) (by rfl),
   boundary_error_mapping.2.2.2.2.1 [{ id := 1, name := "a", email := "e", avatar := none }]
      (issue 1 2 3).access_token [] 2 3 1 (by rfl) (by rfl)⟩

/-- Claim C8: for an authenticated user, update_profile with a field
list containing an unknown field name returns 400 and leaves the
stored user records exactly as they were. -/
theorem failed_update_frame (st : Store) (t : Token) (fields : List (String × String))
    (secret now uid : Nat)
    (hauth : validate t TokenType.access secret now = Except.ok uid)
    (hbad : fields.any (fun f => !(allowedProfileFields.contains f.1)) = true) :
    updateProfile st t fields secret now = (400, st) := by
  simp only [updateProfile, hauth]
  rw [hbad]
  simp

/-- Witness for C8: updating with the unknown field unknown_field via a
valid access token returns 400 and the store is unchanged. -/
theorem failed_update_frame_witness :
    updateProfile [{ id := 1, name := "a", email := "e", avatar := none }]
        (issue 1 2 3).access_token [("unknown_field", "x")] 2 3
      = (400, [{ id := 1, name := "a", email := "e", avatar := none }]) :=
  failed_update_frame _ _ _ 2 3 1 (by rfl) (by rfl)

/-- Claim C9: every response status of the seven me-endpoints lies in
the enumerated set of the interface table: check-session,
get-current-user and logout return 200 or 401; refresh-token,
update-profile, update-avatar and delete-account return 200, 400 or
401; and no single canonical outcome is guaranteed, witnessed by both
200 and 401 being reachable for logout and 200, 400 and 401 all being
reachable for the refresh endpoint. -/
theorem http_status_contract (st : Store) (t : Token) (raw : RawToken)
    (fields : List (String × String)) (img : List Nat) (secret now : Nat) :
    checkSession t secret now ∈ ([200, 401] : List Nat) ∧
    getCurrentUser st t secret now ∈ ([200, 401] : List Nat) ∧
    (logout st t secret now).1 ∈ ([200, 401] : List Nat) ∧
    (gatewayRefresh raw secret now).1 ∈ ([200, 400, 401] : List Nat) ∧
    (updateProfile st t fields secret now).1 ∈ ([200, 400, 401] : List Nat) ∧
    (updateAvatar st t img secret now).1 ∈ ([200, 400, 401] : List Nat) ∧
    (deleteAccount st t secret now).1 ∈ ([200, 400, 401] : List Nat) ∧
    (∃ st2 t2 s2 n2, (logout st2 t2 s2 n2).1 = 200) ∧
    (∃ st2 t2 s2 n2, (logout st2 t2 s2 n2).1 = 401) ∧
    (∃ r2 s2 n2, (gatewayRefresh r2 s2 n2).1 = 200) ∧
    (∃ r2 s2 n2, (gatewayRefresh r2 s2 n2).1 = 400) ∧
    (∃ r2 s2 n2, (gatewayRefresh r2 s2 n2).1 = 401) := by
  refine ⟨?_, ?_, ?_, ?_, ?_, ?_, ?_, ?_, ?_, ?_, ?_, ?_⟩
  · unfold checkSession
    split <;> simp [mapAuthError_eq]
  · unfold getCurrentUser
    split
    · simp [mapAuthError_eq]
    · split <;> simp [mapAuthError_eq]
  · unfold logout
    split <;> simp [mapAuthError_eq]
  · unfold gatewayRefresh
    split
    · simp
    · split <;> simp [mapAuthError_eq]
  · unfold updateProfile
    split
    · simp [mapAuthError_eq]
    · split
      · simp
      · split <;> simp [mapAuthError_eq]
  · unfold updateAvatar
    split
    · simp [mapAuthError_eq]
    · split
      · split <;> simp [mapAuthError_eq]
      · simp
  · unfold deleteAccount
    split
    · simp [mapAuthError_eq]
    · split <;> simp [mapAuthError_eq]
  · exact ⟨[], (issue 1 2 3).access_token, 2, 3, rfl⟩
  · exact ⟨[], { user_id := 1, issued_at := 0, expires_at := 10,
                 token_type := TokenType.access, sig := [] }, 2, 3, rfl⟩
  · exact ⟨RawToken.wellFormed (issue 1 2 3).refresh_token, 2, 3, rfl⟩
  · exact ⟨RawToken.malformed, 2, 3, rfl⟩
  · exact ⟨RawToken.wellFormed { user_id := 1, issued_at := 0, expires_at := 10,
                                 token_type := TokenType.access, sig := [] }, 2, 3, rfl⟩

/-- Claim C10 evaluation: none of the seven view names the me-URLs test
imports from api.views is among the names re-exported by the views
aggregator module, so the test module imports do not resolve against
the sampled aggregator. -/
theorem views_aggregator_missing_me_exports :
    meUrlsTestImports.all (fun n => !(apiViewsAggregatorExports.contains n)) = true := by
  decide

end SessionSpec
